import Mathlib

/-!
# Verification of the WHOIS lookup service (`src/main.py`)

This file is a shallow embedding of the lookup orchestrator in `src/main.py`:
the cache check, the remote WHOIS query with bounded retry, the fallback to
the local resolver, the normalization of result payloads, and the cache
write-through.  Python values flowing through the handler are modelled by an
inductive `Json` type, Python exceptions by `Except PyExn`, the in-process
cache dictionary by an association list, and time (`datetime.utcnow`,
`timedelta`) by natural-number seconds.
-/

set_option autoImplicit false

namespace Whois

/-- Python values as they occur in this program: `None`, booleans, integers,
strings, lists and dictionaries (JSON payloads, WHOIS attribute maps,
response records). -/
inductive Json where
  | null : Json
  | bool (b : Bool) : Json
  | int (n : Int) : Json
  | str (s : String) : Json
  | arr (xs : List Json) : Json
  | obj (fields : List (String × Json)) : Json
  deriving Repr

mutual

/-- Structural equality test on `Json` (Python `==` on these values). -/
def Json.beq : Json → Json → Bool
  | .null, .null => true
  | .bool b, .bool b' => b = b'
  | .int n, .int n' => n = n'
  | .str s, .str s' => s = s'
  | .arr xs, .arr ys => Json.beqList xs ys
  | .obj fs, .obj gs => Json.beqFields fs gs
  | _, _ => false

/-- Equality test on lists of `Json` values. -/
def Json.beqList : List Json → List Json → Bool
  | [], [] => true
  | x :: xs, y :: ys => Json.beq x y && Json.beqList xs ys
  | _, _ => false

/-- Equality test on dictionary entry lists. -/
def Json.beqFields : List (String × Json) → List (String × Json) → Bool
  | [], [] => true
  | (k, v) :: fs, (k', v') :: gs => k = k' && Json.beq v v' && Json.beqFields fs gs
  | _, _ => false

end

mutual

theorem Json.eq_of_beq : ∀ (x y : Json), Json.beq x y = true → x = y
  | .null, .null, _ => rfl
  | .bool b, .bool b', h => by
    have hb : b = b' := by simpa [Json.beq] using h
    rw [hb]
  | .int n, .int n', h => by
    have hn : n = n' := by simpa [Json.beq] using h
    rw [hn]
  | .str s, .str s', h => by
    have hs : s = s' := by simpa [Json.beq] using h
    rw [hs]
  | .arr xs, .arr ys, h => by
    have hl : xs = ys := Json.eqList_of_beq xs ys (by simpa [Json.beq] using h)
    rw [hl]
  | .obj fs, .obj gs, h => by
    have hf : fs = gs := Json.eqFields_of_beq fs gs (by simpa [Json.beq] using h)
    rw [hf]
  | .null, .bool _, h => by simp [Json.beq] at h
  | .null, .int _, h => by simp [Json.beq] at h
  | .null, .str _, h => by simp [Json.beq] at h
  | .null, .arr _, h => by simp [Json.beq] at h
  | .null, .obj _, h => by simp [Json.beq] at h
  | .bool _, .null, h => by simp [Json.beq] at h
  | .bool _, .int _, h => by simp [Json.beq] at h
  | .bool _, .str _, h => by simp [Json.beq] at h
  | .bool _, .arr _, h => by simp [Json.beq] at h
  | .bool _, .obj _, h => by simp [Json.beq] at h
  | .int _, .null, h => by simp [Json.beq] at h
  | .int _, .bool _, h => by simp [Json.beq] at h
  | .int _, .str _, h => by simp [Json.beq] at h
  | .int _, .arr _, h => by simp [Json.beq] at h
  | .int _, .obj _, h => by simp [Json.beq] at h
  | .str _, .null, h => by simp [Json.beq] at h
  | .str _, .bool _, h => by simp [Json.beq] at h
  | .str _, .int _, h => by simp [Json.beq] at h
  | .str _, .arr _, h => by simp [Json.beq] at h
  | .str _, .obj _, h => by simp [Json.beq] at h
  | .arr _, .null, h => by simp [Json.beq] at h
  | .arr _, .bool _, h => by simp [Json.beq] at h
  | .arr _, .int _, h => by simp [Json.beq] at h
  | .arr _, .str _, h => by simp [Json.beq] at h
  | .arr _, .obj _, h => by simp [Json.beq] at h
  | .obj _, .null, h => by simp [Json.beq] at h
  | .obj _, .bool _, h => by simp [Json.beq] at h
  | .obj _, .int _, h => by simp [Json.beq] at h
  | .obj _, .str _, h => by simp [Json.beq] at h
  | .obj _, .arr _, h => by simp [Json.beq] at h

theorem Json.eqList_of_beq : ∀ (xs ys : List Json), Json.beqList xs ys = true → xs = ys
  | [], [], _ => rfl
  | x :: xs, y :: ys, h => by
    have h1 : Json.beq x y = true ∧ Json.beqList xs ys = true := by
      simpa [Json.beqList, Bool.and_eq_true] using h
    rw [Json.eq_of_beq x y h1.1, Json.eqList_of_beq xs ys h1.2]
  | [], _ :: _, h => by simp [Json.beqList] at h
  | _ :: _, [], h => by simp [Json.beqList] at h

theorem Json.eqFields_of_beq :
    ∀ (fs gs : List (String × Json)), Json.beqFields fs gs = true → fs = gs
  | [], [], _ => rfl
  | (k, v) :: fs, (k', v') :: gs, h => by
    have h1 : (k = k' ∧ Json.beq v v' = true) ∧ Json.beqFields fs gs = true := by
      simpa [Json.beqFields, Bool.and_eq_true, decide_eq_true_eq, and_assoc] using h
    rw [h1.1.1, Json.eq_of_beq v v' h1.1.2, Json.eqFields_of_beq fs gs h1.2]
  | [], _ :: _, h => by simp [Json.beqFields] at h
  | _ :: _, [], h => by simp [Json.beqFields] at h

end

mutual

theorem Json.beq_refl : ∀ x : Json, Json.beq x x = true
  | .null => rfl
  | .bool b => by simp [Json.beq]
  | .int n => by simp [Json.beq]
  | .str s => by simp [Json.beq]
  | .arr xs => by simpa [Json.beq] using Json.beqList_refl xs
  | .obj fs => by simpa [Json.beq] using Json.beqFields_refl fs

theorem Json.beqList_refl : ∀ xs : List Json, Json.beqList xs xs = true
  | [] => rfl
  | x :: xs => by simp [Json.beqList, Json.beq_refl x, Json.beqList_refl xs]

theorem Json.beqFields_refl : ∀ fs : List (String × Json), Json.beqFields fs fs = true
  | [] => rfl
  | (k, v) :: fs => by simp [Json.beqFields, Json.beq_refl v, Json.beqFields_refl fs]

end

instance : DecidableEq Json := fun x y =>
  decidable_of_iff (Json.beq x y = true)
    ⟨Json.eq_of_beq x y, fun h => h ▸ Json.beq_refl x⟩

/-- The Python exceptions this code can raise or catch during result
normalization: `AttributeError` (calling `.get`/`.lower` on a value that has
no such attribute) and `TypeError` (`str.join` over non-string items). -/
inductive PyExn where
  | attributeError (msg : String) : PyExn
  | typeError (msg : String) : PyExn
  deriving DecidableEq, Repr

/-- `str(e)` for the exceptions above, used when the local fallback path
interpolates the caught exception into its error message. -/
def PyExn.message : PyExn → String
  | .attributeError m => m
  | .typeError m => m

/-- Python `str.strip()` (line 58): remove leading and trailing whitespace. -/
def pyStrip (s : String) : String :=
  ⟨((s.data.dropWhile Char.isWhitespace).reverse.dropWhile Char.isWhitespace).reverse⟩

/-- Python `str.lower()` (lines 58 and 117/157). -/
def pyLower (s : String) : String :=
  ⟨s.data.map Char.toLower⟩

/-- First-match lookup in a Python dictionary's entry list. -/
def lookupField : List (String × Json) → String → Option Json
  | [], _ => none
  | (k, v) :: rest, key => if k = key then some v else lookupField rest key

/-- Python truthiness (`if not api_result`, `status or "No information"`,
`if lookup_type`). -/
def Json.truthy : Json → Bool
  | .null => false
  | .bool b => b
  | .int n => n != 0
  | .str s => s ≠ ""
  | .arr xs => !xs.isEmpty
  | .obj fs => !fs.isEmpty

/-- `d.get(key, default)`: defined on dictionaries, raises `AttributeError`
on any other receiver (this is how line 147's `api_result.get("result", {})`
and line 148's `res.get("creation_date")` can blow up). -/
def pyDictGet (j : Json) (key : String) (dflt : Json) : Except PyExn Json :=
  match j with
  | .obj fs => .ok ((lookupField fs key).getD dflt)
  | _ => .error (.attributeError "object has no attribute get")

/-- `x or y`: `x` if truthy, else `y`. -/
def pyOr (v dflt : Json) : Json :=
  if v.truthy then v else dflt

/-- `sep.join(xs)`: every item must be a string, otherwise `TypeError`. -/
def pyJoin (sep : String) : List Json → Except PyExn String
  | [] => .ok ""
  | [.str s] => .ok s
  | .str s :: rest => do
    let r ← pyJoin sep rest
    .ok (s ++ sep ++ r)
  | _ => .error (.typeError "sequence item: expected str instance")

/-- `[ns.lower() for ns in xs]`: every item must be a string (`.lower()`
raises `AttributeError` otherwise). -/
def pyLowerAll : List Json → Except PyExn (List Json)
  | [] => .ok []
  | .str s :: rest => do
    let r ← pyLowerAll rest
    .ok (.str (pyLower s) :: r)
  | _ :: _ => .error (.attributeError "object has no attribute lower")

/-- The status-field flattening shared by the API path (lines 150-154) and
the local fallback path (lines 110-114): a list is comma-joined, any other
value passes through `x or "No information"`. -/
def flattenStatus (status : Json) : Except PyExn Json :=
  match status with
  | .arr xs => do
    let s ← pyJoin ", " xs
    .ok (.str s)
  | j => .ok (pyOr j (.str "No information"))

/-- The name-server flattening shared by the API path (lines 155-159) and
the local fallback path (lines 115-119): a list is lower-cased item by item
and newline-joined, any other value passes through `x or "No information"`. -/
def flattenNameServers (name_servers : Json) : Except PyExn Json :=
  match name_servers with
  | .arr xs => do
    let ls ← pyLowerAll xs
    let s ← pyJoin "\n" ls
    .ok (.str s)
  | j => .ok (pyOr j (.str "No information"))

/-- Value of a non-empty all-digit character run, `none` otherwise. -/
def digitsValAux : List Char → Nat → Option Nat
  | [], acc => some acc
  | c :: cs, acc => if c.isDigit then digitsValAux cs (acc * 10 + (c.toNat - 48)) else none

/-- Value of a non-empty all-digit character list. -/
def digitsVal : List Char → Option Nat
  | [] => none
  | ds => digitsValAux ds 0

/-- `int(s)` on a string: optional surrounding whitespace, optional sign,
then decimal digits; anything else raises `ValueError`, modelled as `none`. -/
def pyIntOfString (s : String) : Option Int :=
  match (pyStrip s).data with
  | [] => none
  | '-' :: ds => (digitsVal ds).map (fun n => -(n : Int))
  | '+' :: ds => (digitsVal ds).map (fun n => (n : Int))
  | ds => (digitsVal ds).map (fun n => (n : Int))

/-- Response headers. `httpx` header lookup is case-insensitive, so `get`
compares lower-cased names. -/
def headerGet (headers : List (String × String)) (key : String) : Option String :=
  match headers.find? (fun kv => pyLower kv.1 = pyLower key) with
  | some kv => some kv.2
  | none => none

/-- Lines 162-166: read `X-RateLimit-Remaining` from the response headers;
`int(...)` failure (`ValueError`) and a missing header both yield `None`. -/
def extract_remaining (api_headers : List (String × String)) : Json :=
  match headerGet api_headers "X-RateLimit-Remaining" with
  | none => .null
  | some raw =>
    match pyIntOfString raw with
    | some n => .int n
    | none => .null

/-- One upstream HTTP exchange as the remote resolver adapter sees it:
either a response (status code, parsed JSON body, raw text, headers) or a
connection-level failure (`httpx.RequestError` / `httpx.ReadTimeout`). -/
inductive HttpResponse where
  | resp (status : Nat) (body : Json) (text : String)
      (headers : List (String × String)) : HttpResponse
  | netError : HttpResponse

/-- What `fetch_whois_api` can raise into `whois_lookup`'s retry loop:
`statusError` is `httpx.HTTPStatusError` (caught at line 84), `requestError`
is `httpx.RequestError`/`ReadTimeout` (caught at line 96), and `uncaught`
is any other exception raised inside `fetch_whois_api`, which neither
`except` clause matches, so it escapes the loop and the whole handler. -/
inductive FetchError where
  | statusError (code : Nat) : FetchError
  | requestError : FetchError
  | uncaught (e : PyExn) : FetchError
  deriving DecidableEq, Repr

/-- Lines 36-47, `fetch_whois_api`: on a 404 the code calls
`await resp.text()` at line 41, but `httpx.Response.text` is a property
(a string), so calling it raises `TypeError` before the synthetic
`{"result": "error", ...}` payload of line 43 can be built — that return is
dead code; any other 4xx/5xx status makes `raise_for_status` throw
`HTTPStatusError`; otherwise the parsed JSON body and the response headers
are returned.  A connection failure surfaces as `httpx.RequestError`. -/
def fetch_whois_api : HttpResponse → Except FetchError (Json × List (String × String))
  | .netError => .error .requestError
  | .resp status body _ headers =>
    if status = 404 then
      .error (.uncaught (.typeError "str object is not callable"))
    else if 400 ≤ status then
      .error (.statusError status)
    else
      .ok (body, headers)

/-- The module-level cache dictionary (line 34): `domain -> (result, expiry)`,
expiry in seconds. -/
abbrev Cache : Type := List (String × Json × Nat)

/-- `domain in cache` / `cache[domain]`. -/
def cacheFind : Cache → String → Option (Json × Nat)
  | [], _ => none
  | (k, v, e) :: rest, key => if k = key then some (v, e) else cacheFind rest key

/-- `cache.pop(domain)`. -/
def cacheErase : Cache → String → Cache
  | [], _ => []
  | (k, v, e) :: rest, key => if k = key then rest else (k, v, e) :: cacheErase rest key

/-- `cache[domain] = (result, expiry)`: overwrite in place, append if new. -/
def cacheSet : Cache → String → Json → Nat → Cache
  | [], key, v, e => [(key, v, e)]
  | (k0, v0, e0) :: rest, key, v, e =>
    if k0 = key then (key, v, e) :: rest else (k0, v0, e0) :: cacheSet rest key v e

/-- `CACHE_TTL = timedelta(hours=1)`, in seconds (line 33). -/
def CACHE_TTL : Nat := 3600

/-- Python substring test `pat in s` for strings. -/
def strContains (s pat : String) : Bool :=
  (List.range (s.data.length + 1)).any
    (fun i => (s.data.drop i).take pat.data.length = pat.data)

/-- Update one entry of a dictionary's field list, appending if absent. -/
def dictSetFields : List (String × Json) → String → Json → List (String × Json)
  | [], key, v => [(key, v)]
  | (k0, v0) :: rest, key, v =>
    if k0 = key then (key, v) :: rest else (k0, v0) :: dictSetFields rest key v

/-- `d[key] = v` on a dictionary value (item assignment leaves any non-dict
untouched here; the caller below only reaches it on a dict receiver). -/
def dictSet (j : Json) (key : String) (v : Json) : Json :=
  match j with
  | .obj fs => .obj (dictSetFields fs key v)
  | j => j

/-- Lines 66-68: on a live cache hit, read `lookup_type` (default `""`);
when the string `"cached"` does not occur in it, destructively update the
cached record's `lookup_type` to `"<old>, cached"` (or just `"cached"` when
the old value is falsy).  A cached record whose `lookup_type` is not a
string would make the Python `in` test fail with `TypeError`; records this
program writes always carry a string there. -/
def mutateCached (cached_result : Json) : Except PyExn Json := do
  let lt ← pyDictGet cached_result "lookup_type" (.str "")
  match lt with
  | .str s =>
    if strContains s "cached" then
      .ok cached_result
    else
      .ok (dictSet cached_result "lookup_type"
        (.str (if s ≠ "" then s ++ ", cached" else "cached")))
  | _ => .error (.typeError "argument is not iterable")

/-- Outcome of the retry loop of lines 76-98. -/
inductive RemoteLoopResult where
  | got (api_result : Json) (api_headers : List (String × String))
      (callsMade : Nat) : RemoteLoopResult
  | rateLimited (callsMade : Nat) : RemoteLoopResult
  | exhausted : RemoteLoopResult
  | raised (e : PyExn) (callsMade : Nat) : RemoteLoopResult
  deriving Repr

/-- The body of the retry loop of lines 76-98, driven by the number of
attempts still allowed (`remaining = max_attempts - attempt`), with
`attempt` tracking how many calls have been made so far.  A successful
fetch breaks out with the payload and headers; `HTTPStatusError` with code
429 (line 85) returns the rate-limit result immediately; every other caught
error (lines 94-97) increments `attempt` and retries; an exception that
matches neither `except` clause (such as the 404 branch's `TypeError`)
aborts the loop and propagates.  `responses n` is the upstream exchange
seen by attempt `n`. -/
def remoteLoopAux (responses : Nat → HttpResponse) (attempt : Nat) :
    Nat → RemoteLoopResult
  | 0 => .exhausted
  | remaining + 1 =>
    match fetch_whois_api (responses attempt) with
    | .ok (body, headers) => .got body headers (attempt + 1)
    | .error (.statusError code) =>
      if code = 429 then .rateLimited (attempt + 1)
      else remoteLoopAux responses (attempt + 1) remaining
    | .error .requestError => remoteLoopAux responses (attempt + 1) remaining
    | .error (.uncaught e) => .raised e (attempt + 1)

/-- Lines 76-98: `while attempt < max_attempts`, starting from a given
attempt counter. -/
def remoteLoop (responses : Nat → HttpResponse) (attempt max_attempts : Nat) :
    RemoteLoopResult :=
  remoteLoopAux responses attempt (max_attempts - attempt)

/-- Lines 87-93: the record returned on a 429 from upstream. -/
def rateLimitRecord (domain : String) : Json :=
  .obj [("domain", .str domain),
        ("result", .str "error"),
        ("message", .str "Rate limit exceeded"),
        ("lookup_type", .str "whois_api"),
        ("remaining_api_calls", .int 0)]

/-- Lines 146-178: parse the API payload into the canonical response record.
`api_result.get("result", {})` (line 147) raises `AttributeError` when the
payload is not a dictionary, and `res.get(...)` (line 148) raises when the
nested `result` value is not a dictionary (a string, list, number, ...). -/
def parseApiResult (domain : String) (api_result : Json)
    (api_headers : List (String × String)) : Except PyExn Json := do
  let res ← pyDictGet api_result "result" (.obj [])
  let creation_date0 ← pyDictGet res "creation_date" .null
  let creation_date := pyOr creation_date0 (.str "No information")
  let registrar0 ← pyDictGet res "registrar" .null
  let registrar := pyOr registrar0 (.str "No information")
  let status0 ← pyDictGet res "status" .null
  let status ← flattenStatus status0
  let name_servers0 ← pyDictGet res "name_servers" .null
  let name_servers ← flattenNameServers name_servers0
  let expiration_date ← pyDictGet res "expiration_date" .null
  .ok (.obj [
    ("domain", .str domain),
    ("creation_date", creation_date),
    ("registrar", registrar),
    ("status", status),
    ("name_servers", name_servers),
    ("expiration_date", expiration_date),
    ("result", .str "success"),
    ("lookup_type", .str "whois_api"),
    ("remaining_api_calls", extract_remaining api_headers)])

/-- What the local resolver collaborator (`grabio`) does on one call: return
a raw WHOIS attribute value, or raise. -/
inductive LocalOutcome where
  | ok (whois_data : Json) : LocalOutcome
  | raised (msg : String) : LocalOutcome

/-- Lines 108-132: normalize the local resolver's raw attributes into the
canonical response record.  Runs inside the `try` of the fallback block, so
any exception here is caught by line 136. -/
def localNormalize (domain : String) (whois_data : Json) : Except PyExn Json := do
  let creation_date ← pyDictGet whois_data "creation_date" (.str "No information")
  let registrar ← pyDictGet whois_data "registrar" (.str "No information")
  let status0 ← pyDictGet whois_data "status" .null
  let status ← flattenStatus status0
  let name_servers0 ← pyDictGet whois_data "name_servers" .null
  let name_servers ← flattenNameServers name_servers0
  let expiration_date ← pyDictGet whois_data "expiration_date" .null
  .ok (.obj [
    ("domain", .str domain),
    ("creation_date", creation_date),
    ("registrar", registrar),
    ("status", status),
    ("name_servers", name_servers),
    ("expiration_date", expiration_date),
    ("result", .str "success"),
    ("lookup_type", .str "local"),
    ("remaining_api_calls", .null)])

/-- Lines 138-144: the record returned when the fallback block catches an
exception `e`; its message interpolates `str(e)`. -/
def localErrorRecord (domain msg : String) : Json :=
  .obj [("domain", .str domain),
        ("result", .str "error"),
        ("message", .str ("Local WHOIS lookup failed: " ++ msg)),
        ("lookup_type", .str "local"),
        ("remaining_api_calls", .null)]

/-- Lines 100-144, the fallback block: call `grabio`, normalize, cache the
normalized record; the blanket `except Exception` turns a raise from the
resolver or from normalization into the uncached error record. -/
def localLookup (domain : String) (now : Nat) (cache : Cache)
    (localR : LocalOutcome) : Json × Cache :=
  match localR with
  | .raised msg => (localErrorRecord domain msg, cache)
  | .ok whois_data =>
    match localNormalize domain whois_data with
    | .ok result => (result, cacheSet cache domain result (now + CACHE_TTL))
    | .error e => (localErrorRecord domain e.message, cache)

instance {ε α : Type} [DecidableEq ε] [DecidableEq α] : DecidableEq (Except ε α) :=
  fun x y =>
    match x, y with
    | .ok a, .ok b => if h : a = b then isTrue (by rw [h]) else isFalse (by simp [h])
    | .error a, .error b => if h : a = b then isTrue (by rw [h]) else isFalse (by simp [h])
    | .ok _, .error _ => isFalse (by simp)
    | .error _, .ok _ => isFalse (by simp)

/-- Observable outcome of one `whois_lookup` call: the returned record (or
the Python exception escaping to the framework), the cache state afterwards,
and how many remote attempts and local-resolver calls were made. -/
structure LookupOutput where
  result : Except PyExn Json
  cache : Cache
  remoteCalls : Nat
  localCalls : Nat
  deriving DecidableEq, Repr

/-- Lines 74-181: everything after a cache miss — the retry loop, the
rate-limit early return, the `if not api_result` fallback test (Python
truthiness, so an empty or null payload also falls back), the fallback
block, and the API-result parse and cache write. -/
def lookupUncached (domain : String) (now : Nat) (cache : Cache)
    (responses : Nat → HttpResponse) (localR : LocalOutcome) : LookupOutput :=
  match remoteLoop responses 0 3 with
  | .rateLimited n => ⟨.ok (rateLimitRecord domain), cache, n, 0⟩
  | .raised e n => ⟨.error e, cache, n, 0⟩
  | .exhausted =>
    let rc := localLookup domain now cache localR
    ⟨.ok rc.1, rc.2, 3, 1⟩
  | .got api_result api_headers n =>
    if api_result.truthy then
      match parseApiResult domain api_result api_headers with
      | .ok result => ⟨.ok result, cacheSet cache domain result (now + CACHE_TTL), n, 0⟩
      | .error e => ⟨.error e, cache, n, 0⟩
    else
      let rc := localLookup domain now cache localR
      ⟨.ok rc.1, rc.2, n, 1⟩

/-- Lines 56-181, the `POST /whois` handler `whois_lookup`: normalize the
domain, consult the cache (returning the — mutated — stored record while it
is live, lazily popping it once expired), then run the uncached path.
`now` is `datetime.utcnow()` in seconds; `responses` feeds the retry loop;
`localR` is what the local resolver would do if invoked. -/
def whois_lookup (domain0 : String) (now : Nat) (cache : Cache)
    (responses : Nat → HttpResponse) (localR : LocalOutcome) : LookupOutput :=
  let domain := pyLower (pyStrip domain0)
  match cacheFind cache domain with
  | some (cached_result, expiry) =>
    if now < expiry then
      match mutateCached cached_result with
      | .ok r => ⟨.ok r, cacheSet cache domain r expiry, 0, 0⟩
      | .error e => ⟨.error e, cache, 0, 0⟩
    else
      lookupUncached domain now (cacheErase cache domain) responses localR
  | none => lookupUncached domain now cache responses localR

/-- Field access on a record value (used to state properties of the
returned records). -/
def getField (j : Json) (key : String) : Option Json :=
  match j with
  | .obj fs => lookupField fs key
  | _ => none

/-- A fetch outcome that line 94's `else` or line 96's `except` absorbs, so
that the loop moves on to the next attempt: any raised error other than the
429 status error. -/
def isRetryableError (r : HttpResponse) : Bool :=
  match fetch_whois_api r with
  | .ok _ => false
  | .error (.statusError code) => code ≠ 429
  | .error .requestError => true
  | .error (.uncaught _) => false

/-- The cache holds no entry for `domain` that is still live at `now` (so
lines 62-72 fall through to the uncached path). -/
def notLive (cache : Cache) (domain : String) (now : Nat) : Bool :=
  match cacheFind cache domain with
  | none => true
  | some (_, e) => decide (e ≤ now)

section Lemmas

theorem exceptBind_eq_ok {ε α β : Type} (x : Except ε α) (f : α → Except ε β) (b : β) :
    (x >>= f) = .ok b ↔ ∃ a, x = .ok a ∧ f a = .ok b := by
  cases x <;> simp [Bind.bind, Except.bind]

theorem cacheErase_not_mem (cache : Cache) (key : String)
    (h : cacheFind cache key = none) : cacheErase cache key = cache := by
  induction cache with
  | nil => rfl
  | cons kv rest ih =>
    obtain ⟨k, v, e⟩ := kv
    by_cases hk : k = key
    · simp [cacheFind, hk] at h
    · simp [cacheFind, hk] at h
      simp [cacheErase, hk, ih h]

theorem cacheFind_cacheSet (cache : Cache) (key : String) (v : Json) (e : Nat) :
    cacheFind (cacheSet cache key v e) key = some (v, e) := by
  induction cache with
  | nil => simp [cacheSet, cacheFind]
  | cons kv rest ih =>
    obtain ⟨k0, v0, e0⟩ := kv
    by_cases hk : k0 = key
    · simp [cacheSet, hk, cacheFind]
    · simp [cacheSet, hk, cacheFind, ih]

theorem cacheSet_self (cache : Cache) (key : String) (v : Json) (e : Nat)
    (h : cacheFind cache key = some (v, e)) : cacheSet cache key v e = cache := by
  induction cache with
  | nil => simp [cacheFind] at h
  | cons kv rest ih =>
    obtain ⟨k0, v0, e0⟩ := kv
    by_cases hk : k0 = key
    · simp [cacheFind, hk] at h
      simp [cacheSet, hk, h.1, h.2]
    · simp [cacheFind, hk] at h
      simp [cacheSet, hk, ih h]

theorem remoteLoop_step (responses : Nat → HttpResponse) (a m : Nat) (h : a < m)
    (hr : isRetryableError (responses a) = true) :
    remoteLoop responses a m = remoteLoop responses (a + 1) m := by
  unfold remoteLoop
  have h1 : m - a = (m - (a + 1)) + 1 := by omega
  rw [h1]
  revert hr
  unfold isRetryableError
  cases hf : fetch_whois_api (responses a) with
  | ok p => simp
  | error f =>
    cases f with
    | requestError => intro _; simp only [remoteLoopAux, hf]
    | uncaught e => simp
    | statusError c =>
      intro hr
      have hc : c ≠ 429 := by simpa using hr
      simp only [remoteLoopAux, hf]
      rw [if_neg hc]

theorem remoteLoop_skip (responses : Nat → HttpResponse) (m i : Nat) :
    ∀ a, a + i ≤ m →
    (∀ j, j < i → isRetryableError (responses (a + j)) = true) →
    remoteLoop responses a m = remoteLoop responses (a + i) m := by
  induction i with
  | zero => intro a _ _; rfl
  | succ n ih =>
    intro a hle hr
    have h1 : a < m := by omega
    have hr0 : isRetryableError (responses a) = true := by
      simpa using hr 0 (by omega)
    rw [remoteLoop_step responses a m h1 hr0]
    have hrest := ih (a + 1) (by omega) (fun j hj => by
      have := hr (j + 1) (by omega)
      have hadd : a + (j + 1) = a + 1 + j := by omega
      rwa [hadd] at this)
    rw [hrest]
    have : a + 1 + n = a + (n + 1) := by omega
    rw [this]

theorem remoteLoop_got (responses : Nat → HttpResponse) (a m : Nat) (h : a < m)
    (body : Json) (headers : List (String × String))
    (hf : fetch_whois_api (responses a) = .ok (body, headers)) :
    remoteLoop responses a m = .got body headers (a + 1) := by
  unfold remoteLoop
  have h1 : m - a = (m - (a + 1)) + 1 := by omega
  rw [h1]
  simp only [remoteLoopAux, hf]

theorem remoteLoop_429 (responses : Nat → HttpResponse) (a m : Nat) (h : a < m)
    (hf : fetch_whois_api (responses a) = .error (.statusError 429)) :
    remoteLoop responses a m = .rateLimited (a + 1) := by
  unfold remoteLoop
  have h1 : m - a = (m - (a + 1)) + 1 := by omega
  rw [h1]
  simp [remoteLoopAux, hf]

theorem remoteLoop_exhausted_at (responses : Nat → HttpResponse) (m : Nat) :
    remoteLoop responses m m = .exhausted := by
  unfold remoteLoop
  rw [Nat.sub_self]
  rfl

theorem remoteLoopAux_calls_bound (responses : Nat → HttpResponse) :
    ∀ (rem a : Nat),
    (∀ body headers n,
        remoteLoopAux responses a rem = .got body headers n → a < n ∧ n ≤ a + rem) ∧
    (∀ n, remoteLoopAux responses a rem = .rateLimited n → a < n ∧ n ≤ a + rem) ∧
    (∀ e n, remoteLoopAux responses a rem = .raised e n → a < n ∧ n ≤ a + rem) := by
  intro rem
  induction rem with
  | zero =>
    intro a
    exact ⟨fun _ _ _ hg => RemoteLoopResult.noConfusion hg,
           fun _ hg => RemoteLoopResult.noConfusion hg,
           fun _ _ hg => RemoteLoopResult.noConfusion hg⟩
  | succ k ih =>
    intro a
    simp only [remoteLoopAux]
    split
    · refine ⟨fun b' hs' n hg => ?_, fun n hg => RemoteLoopResult.noConfusion hg,
              fun e n hg => RemoteLoopResult.noConfusion hg⟩
      cases hg
      omega
    · rename_i code heq
      by_cases hc : code = 429
      · rw [if_pos hc]
        refine ⟨fun b' hs' n hg => RemoteLoopResult.noConfusion hg, fun n hg => ?_,
                fun e n hg => RemoteLoopResult.noConfusion hg⟩
        cases hg
        omega
      · rw [if_neg hc]
        have hrec := ih (a + 1)
        refine ⟨fun b' hs' n hg => ?_, fun n hg => ?_, fun e n hg => ?_⟩
        · have := hrec.1 b' hs' n hg
          omega
        · have := hrec.2.1 n hg
          omega
        · have := hrec.2.2 e n hg
          omega
    · have hrec := ih (a + 1)
      refine ⟨fun b' hs' n hg => ?_, fun n hg => ?_, fun e n hg => ?_⟩
      · have := hrec.1 b' hs' n hg
        omega
      · have := hrec.2.1 n hg
        omega
      · have := hrec.2.2 e n hg
        omega
    · refine ⟨fun b' hs' n hg => RemoteLoopResult.noConfusion hg,
              fun n hg => RemoteLoopResult.noConfusion hg, fun e n hg => ?_⟩
      cases hg
      omega

theorem remoteLoop_calls_bound (responses : Nat → HttpResponse) (a m : Nat)
    (ham : a ≤ m) :
    (∀ body headers n, remoteLoop responses a m = .got body headers n → a < n ∧ n ≤ m) ∧
    (∀ n, remoteLoop responses a m = .rateLimited n → a < n ∧ n ≤ m) ∧
    (∀ e n, remoteLoop responses a m = .raised e n → a < n ∧ n ≤ m) := by
  have hb := remoteLoopAux_calls_bound responses (m - a) a
  have hadd : a + (m - a) = m := by omega
  rw [hadd] at hb
  unfold remoteLoop
  exact hb

/-- The tail of a separated join: `sep ++ a₁ ++ sep ++ a₂ ++ ⋯`. -/
def joinTail (sep : String) : List String → String
  | [] => ""
  | a :: as => sep ++ a ++ joinTail sep as

theorem intercalate_go_eq (sep : String) : ∀ (xs : List String) (acc : String),
    String.intercalate.go acc sep xs = acc ++ joinTail sep xs := by
  intro xs
  induction xs with
  | nil => intro acc; simp [String.intercalate.go, joinTail]
  | cons a as ih =>
    intro acc
    rw [String.intercalate.go, ih]
    simp [joinTail, String.append_assoc]

/-- `pyJoin` on a list of strings is exactly `String.intercalate`. -/
theorem pyJoin_strings (sep : String) : ∀ xs : List String,
    pyJoin sep (xs.map Json.str) = .ok (String.intercalate sep xs) := by
  intro xs
  induction xs with
  | nil => rfl
  | cons x rest ih =>
    cases rest with
    | nil => rfl
    | cons y t =>
      have hx : pyJoin sep ((x :: y :: t).map Json.str) =
          (pyJoin sep ((y :: t).map Json.str)).bind
            (fun r => .ok (x ++ sep ++ r)) := rfl
      rw [hx, ih]
      show Except.ok (x ++ sep ++ String.intercalate sep (y :: t)) = _
      rw [String.intercalate, String.intercalate, intercalate_go_eq, intercalate_go_eq]
      simp [joinTail, String.append_assoc]

/-- `pyLowerAll` on a list of strings lower-cases each entry. -/
theorem pyLowerAll_strings : ∀ xs : List String,
    pyLowerAll (xs.map Json.str) = .ok ((xs.map pyLower).map Json.str) := by
  intro xs
  induction xs with
  | nil => rfl
  | cons x rest ih =>
    have hx : pyLowerAll ((x :: rest).map Json.str) =
        (pyLowerAll (rest.map Json.str)).bind
          (fun r => .ok (.str (pyLower x) :: r)) := rfl
    rw [hx, ih]
    rfl

theorem parseApiResult_ok_shape (d : String) (b : Json) (hs : List (String × String))
    (r : Json) (hp : parseApiResult d b hs = .ok r) :
    getField r "result" = some (.str "success") ∧
    getField r "lookup_type" = some (.str "whois_api") ∧
    getField r "remaining_api_calls" = some (extract_remaining hs) ∧
    getField r "domain" = some (.str d) := by
  unfold parseApiResult at hp
  simp only [exceptBind_eq_ok, Except.ok.injEq] at hp
  obtain ⟨res, h1, cd, h2, rg, h3, st0, h4, st, h5, ns0, h6, ns, h7, ex, h8, hr⟩ := hp
  subst hr
  exact ⟨rfl, rfl, rfl, rfl⟩

theorem localNormalize_ok_shape (d : String) (wd : Json)
    (r : Json) (hp : localNormalize d wd = .ok r) :
    getField r "result" = some (.str "success") ∧
    getField r "lookup_type" = some (.str "local") ∧
    getField r "remaining_api_calls" = some .null ∧
    getField r "domain" = some (.str d) := by
  unfold localNormalize at hp
  simp only [exceptBind_eq_ok, Except.ok.injEq] at hp
  obtain ⟨cd, h1, rg, h2, st0, h3, st, h4, ns0, h5, ns, h6, ex, h7, hr⟩ := hp
  subst hr
  exact ⟨rfl, rfl, rfl, rfl⟩

theorem whois_lookup_notLive (domain0 : String) (now : Nat) (cache : Cache)
    (responses : Nat → HttpResponse) (localR : LocalOutcome)
    (h : notLive cache (pyLower (pyStrip domain0)) now = true) :
    whois_lookup domain0 now cache responses localR =
      lookupUncached (pyLower (pyStrip domain0)) now
        (cacheErase cache (pyLower (pyStrip domain0))) responses localR := by
  unfold whois_lookup
  unfold notLive at h
  cases hf : cacheFind cache (pyLower (pyStrip domain0)) with
  | none =>
    rw [cacheErase_not_mem cache _ hf]
    simp only [hf]
  | some p =>
    obtain ⟨r, e⟩ := p
    rw [hf] at h
    have he : e ≤ now := by simpa using h
    simp only [hf]
    rw [if_neg (by omega)]

theorem lookupUncached_remoteCalls (domain : String) (now : Nat) (cache : Cache)
    (responses : Nat → HttpResponse) (localR : LocalOutcome) :
    1 ≤ (lookupUncached domain now cache responses localR).remoteCalls ∧
    (lookupUncached domain now cache responses localR).remoteCalls ≤ 3 := by
  have hb := remoteLoop_calls_bound responses 0 3 (by omega)
  unfold lookupUncached
  cases hr : remoteLoop responses 0 3 with
  | got b hs n =>
    have hn := hb.1 b hs n hr
    by_cases ht : b.truthy = true
    · simp only [ht, if_pos]
      cases hp : parseApiResult domain b hs <;> simp <;> omega
    · simp only [Bool.not_eq_true] at ht
      simp [ht]
      omega
  | rateLimited n =>
    have hn := hb.2.1 n hr
    simp
    omega
  | raised e n =>
    have hn := hb.2.2 e n hr
    simp
    omega
  | exhausted => simp

theorem whois_lookup_remoteCalls_le (domain0 : String) (now : Nat) (cache : Cache)
    (responses : Nat → HttpResponse) (localR : LocalOutcome) :
    (whois_lookup domain0 now cache responses localR).remoteCalls ≤ 3 := by
  unfold whois_lookup
  cases hf : cacheFind cache (pyLower (pyStrip domain0)) with
  | none =>
    simp only [hf]
    exact (lookupUncached_remoteCalls _ _ _ _ _).2
  | some p =>
    obtain ⟨r, e⟩ := p
    simp only [hf]
    by_cases hlt : now < e
    · rw [if_pos hlt]
      cases mutateCached r <;> simp
    · rw [if_neg hlt]
      exact (lookupUncached_remoteCalls _ _ _ _ _).2

/-- Shared evaluation of the rate-limited path: with no live cache entry,
`i` retryable failures and then a 429 on attempt `i < 3`, the handler
returns the rate-limit record, leaves the cache untouched, makes `i + 1`
remote calls and no local call (lines 84-93). -/
theorem whois_lookup_rate_limited (domain0 : String) (now : Nat) (cache : Cache)
    (responses : Nat → HttpResponse) (localR : LocalOutcome) (i : Nat)
    (hmiss : cacheFind cache (pyLower (pyStrip domain0)) = none)
    (hi : i < 3)
    (hpre : ∀ j, j < i → isRetryableError (responses j) = true)
    (h429 : fetch_whois_api (responses i) = .error (.statusError 429)) :
    whois_lookup domain0 now cache responses localR =
      ⟨.ok (rateLimitRecord (pyLower (pyStrip domain0))), cache, i + 1, 0⟩ := by
  have hnl : notLive cache (pyLower (pyStrip domain0)) now = true := by
    unfold notLive
    rw [hmiss]
  have hskip := remoteLoop_skip responses 3 i 0 (by omega)
      (fun j hj => by simpa using hpre j hj)
  rw [Nat.zero_add] at hskip
  have hloop : remoteLoop responses 0 3 = .rateLimited (i + 1) := by
    rw [hskip]
    exact remoteLoop_429 responses i 3 hi h429
  rw [whois_lookup_notLive domain0 now cache responses localR hnl,
      cacheErase_not_mem cache _ hmiss]
  unfold lookupUncached
  rw [hloop]

end Lemmas

section Claims

/-- Claim C2 (code_bug): the spec says the lookup never raises and that a
payload whose nested `result` section is not a mapping is converted into an
error-shaped record.  The code violates this: with a 200 response whose
`result` value is a list, line 147 binds `res` to that list and line 148's
`res.get("creation_date")` raises `AttributeError`, which no handler
catches, so the exception escapes `whois_lookup`. -/
theorem lookup_raises_on_non_mapping_result :
    (whois_lookup "bad-result.example" 0 []
        (fun _ => .resp 200 (.obj [("result", .arr [.int 5])]) "" [])
        (.raised "x")).result =
      .error (.attributeError "object has no attribute get") := rfl

/-- Claim C3 (code_bug): the spec says a 404 yields a terminal
`NotRegistered` success-shaped record that is cached.  In the code, the 404
branch of `fetch_whois_api` calls `await resp.text()` (line 41), but
`httpx.Response.text` is a property, so calling it raises `TypeError`;
neither `except` clause of the retry loop matches a `TypeError`, so on a
404 the handler makes exactly one remote call, performs no retry and no
local fallback, raises to the caller instead of returning a success-shaped
record, and writes nothing to the cache (line 43's synthetic "Domain not
registered" payload is dead code). -/
theorem lookup_404_raises_uncached :
    whois_lookup "gone.example" 0 []
        (fun _ => .resp 404 (.obj []) "domain not found" []) (.raised "x") =
      ⟨.error (.typeError "str object is not callable"), [], 1, 0⟩ := rfl

/-- Claim C4 (confirmed): a 429 on any attempt (after retryable failures on
the earlier attempts) makes the lookup return immediately with the
rate-limit record — message "Rate limit exceeded", `result = "error"` — with
no further retry, no local-resolver call and no cache write, so any
subsequent lookup for the same domain still reaches the remote source. -/
theorem rate_limited_terminal (domain0 : String) (now : Nat) (cache : Cache)
    (responses : Nat → HttpResponse) (localR : LocalOutcome) (i : Nat)
    (hmiss : cacheFind cache (pyLower (pyStrip domain0)) = none)
    (hi : i < 3)
    (hpre : ∀ j, j < i → isRetryableError (responses j) = true)
    (h429 : fetch_whois_api (responses i) = .error (.statusError 429)) :
    whois_lookup domain0 now cache responses localR =
      ⟨.ok (rateLimitRecord (pyLower (pyStrip domain0))), cache, i + 1, 0⟩ ∧
    ∀ (now' : Nat) (responses' : Nat → HttpResponse) (localR' : LocalOutcome),
      1 ≤ (whois_lookup domain0 now' cache responses' localR').remoteCalls := by
  refine ⟨whois_lookup_rate_limited domain0 now cache responses localR i
      hmiss hi hpre h429, ?_⟩
  intro now' responses' localR'
  rw [whois_lookup_notLive domain0 now' cache responses' localR'
      (by unfold notLive; rw [hmiss])]
  exact (lookupUncached_remoteCalls _ _ _ _ _).1

/-- Concrete run for the C4 witness: a network failure on attempt 0, then a
429 on attempt 1. -/
def rlResponses : Nat → HttpResponse := fun n =>
  if n = 0 then .netError
  else .resp 429 (.obj []) "" [("X-RateLimit-Remaining", "7")]

theorem rate_limited_terminal_witness :
    whois_lookup "rate.example" 5 [] rlResponses (.raised "x") =
      ⟨.ok (rateLimitRecord (pyLower (pyStrip "rate.example"))), [], 2, 0⟩ ∧
    ∀ (now' : Nat) (responses' : Nat → HttpResponse) (localR' : LocalOutcome),
      1 ≤ (whois_lookup "rate.example" now' [] responses' localR').remoteCalls :=
  rate_limited_terminal "rate.example" 5 [] rlResponses (.raised "x") 1
    rfl (by omega) (fun j hj => by interval_cases j; rfl) rfl

/-- Claim C5 (confirmed): the retry loop makes at most three total attempts
(`max_attempts = 3`, line 77), and a transient failure on attempt 1 followed
by a success on attempt 2 yields the remote-sourced success record — cached
under the normalized domain — with exactly two remote calls and the local
resolver never invoked.  The scenario hypotheses provide the parsed record
`r` (so the payload is well formed); its `result`/`lookup_type` fields are
shown to be `"success"`/`"whois_api"`. -/
theorem retry_bound_and_transient_then_success :
    (∀ (domain0 : String) (now : Nat) (cache : Cache)
        (responses : Nat → HttpResponse) (localR : LocalOutcome),
        (whois_lookup domain0 now cache responses localR).remoteCalls ≤ 3) ∧
    (∀ (domain0 : String) (now : Nat) (cache : Cache)
        (responses : Nat → HttpResponse) (localR : LocalOutcome)
        (body : Json) (hdrs : List (String × String)) (r : Json),
        cacheFind cache (pyLower (pyStrip domain0)) = none →
        fetch_whois_api (responses 0) = .error .requestError →
        fetch_whois_api (responses 1) = .ok (body, hdrs) →
        body.truthy = true →
        parseApiResult (pyLower (pyStrip domain0)) body hdrs = .ok r →
        whois_lookup domain0 now cache responses localR =
          ⟨.ok r, cacheSet cache (pyLower (pyStrip domain0)) r (now + CACHE_TTL), 2, 0⟩ ∧
        getField r "result" = some (.str "success") ∧
        getField r "lookup_type" = some (.str "whois_api")) := by
  constructor
  · exact whois_lookup_remoteCalls_le
  · intro domain0 now cache responses localR body hdrs r hmiss h0 h1 ht hp
    have hloop : remoteLoop responses 0 3 = .got body hdrs 2 := by
      have hstep := remoteLoop_step responses 0 3 (by omega)
        (by unfold isRetryableError; rw [h0])
      rw [hstep]
      exact remoteLoop_got responses 1 3 (by omega) body hdrs h1
    have hshape := parseApiResult_ok_shape _ _ _ _ hp
    refine ⟨?_, hshape.1, hshape.2.1⟩
    rw [whois_lookup_notLive domain0 now cache responses localR
        (by unfold notLive; rw [hmiss]),
        cacheErase_not_mem cache _ hmiss]
    unfold lookupUncached
    rw [hloop]
    simp only [ht, if_pos]
    rw [hp]

/-- Concrete run for the C5 witness: network failure on attempt 0, then a
success on attempt 1. -/
def c5Responses : Nat → HttpResponse := fun n =>
  if n = 0 then .netError
  else .resp 200 (.obj [("result", .obj [("status", .arr [.str "active"])])]) ""
    [("X-RateLimit-Remaining", "9")]

/-- The record the C5 witness run produces. -/
def c5Record : Json :=
  .obj [("domain", .str "retry.example"),
        ("creation_date", .str "No information"),
        ("registrar", .str "No information"),
        ("status", .str "active"),
        ("name_servers", .str "No information"),
        ("expiration_date", .null),
        ("result", .str "success"),
        ("lookup_type", .str "whois_api"),
        ("remaining_api_calls", .int 9)]

theorem retry_bound_and_transient_then_success_witness :
    (whois_lookup "retry.example" 0 [] c5Responses (.raised "x")).remoteCalls ≤ 3 ∧
    (whois_lookup "retry.example" 0 [] c5Responses (.raised "x") =
        ⟨.ok c5Record,
         cacheSet [] (pyLower (pyStrip "retry.example")) c5Record (0 + CACHE_TTL), 2, 0⟩ ∧
      getField c5Record "result" = some (.str "success") ∧
      getField c5Record "lookup_type" = some (.str "whois_api")) :=
  ⟨retry_bound_and_transient_then_success.1 "retry.example" 0 [] c5Responses (.raised "x"),
   retry_bound_and_transient_then_success.2 "retry.example" 0 [] c5Responses (.raised "x")
     (.obj [("result", .obj [("status", .arr [.str "active"])])])
     [("X-RateLimit-Remaining", "9")] c5Record rfl rfl rfl rfl rfl⟩

/-- Claim C6 (confirmed): when all three remote attempts fail with retryable
errors, the local resolver is invoked exactly once.  A local resolution that
succeeds with a payload that normalizes cleanly yields the normalized record
(`lookup_type = "local"`, `result = "success"`), which is written to the
cache under the normalized domain with the standard TTL; a local resolution
that raises yields the `"error"`-shaped local record and leaves the cache
unchanged. -/
theorem exhausted_retries_fallback (domain0 : String) (now : Nat) (cache : Cache)
    (responses : Nat → HttpResponse) (localR : LocalOutcome)
    (hmiss : cacheFind cache (pyLower (pyStrip domain0)) = none)
    (hall : ∀ j, j < 3 → isRetryableError (responses j) = true) :
    (whois_lookup domain0 now cache responses localR).localCalls = 1 ∧
    (whois_lookup domain0 now cache responses localR).remoteCalls = 3 ∧
    (∀ wd r, localR = .ok wd → localNormalize (pyLower (pyStrip domain0)) wd = .ok r →
      (whois_lookup domain0 now cache responses localR).result = .ok r ∧
      getField r "lookup_type" = some (.str "local") ∧
      getField r "result" = some (.str "success") ∧
      cacheFind (whois_lookup domain0 now cache responses localR).cache
        (pyLower (pyStrip domain0)) = some (r, now + CACHE_TTL)) ∧
    (∀ msg, localR = .raised msg →
      (whois_lookup domain0 now cache responses localR).result =
        .ok (localErrorRecord (pyLower (pyStrip domain0)) msg) ∧
      getField (localErrorRecord (pyLower (pyStrip domain0)) msg) "result" =
        some (.str "error") ∧
      (whois_lookup domain0 now cache responses localR).cache = cache) := by
  have hloop : remoteLoop responses 0 3 = .exhausted := by
    have hskip := remoteLoop_skip responses 3 3 0 (by omega)
      (fun j hj => by simpa using hall j hj)
    rw [Nat.zero_add] at hskip
    rw [hskip]
    exact remoteLoop_exhausted_at responses 3
  have hmain : whois_lookup domain0 now cache responses localR =
      ⟨.ok (localLookup (pyLower (pyStrip domain0)) now cache localR).1,
       (localLookup (pyLower (pyStrip domain0)) now cache localR).2, 3, 1⟩ := by
    rw [whois_lookup_notLive domain0 now cache responses localR
        (by unfold notLive; rw [hmiss]),
        cacheErase_not_mem cache _ hmiss]
    unfold lookupUncached
    rw [hloop]
  rw [hmain]
  refine ⟨rfl, rfl, ?_, ?_⟩
  · intro wd r hl hn
    subst hl
    have hshape := localNormalize_ok_shape _ _ _ hn
    simp only [localLookup, hn]
    exact ⟨trivial, hshape.2.1, hshape.1, cacheFind_cacheSet cache _ r (now + CACHE_TTL)⟩
  · intro msg hl
    subst hl
    exact ⟨rfl, rfl, rfl⟩

/-- All three attempts fail with a network error (C6 witness input). -/
def netFail : Nat → HttpResponse := fun _ => .netError

/-- Raw local-resolver attributes for the C6 witness. -/
def c6Wd : Json := .obj [("name_servers", .arr [.str "NS1.EXAMPLE.COM"])]

/-- The normalized local record the C6 witness run produces. -/
def c6Record : Json :=
  .obj [("domain", .str "fb.example"),
        ("creation_date", .str "No information"),
        ("registrar", .str "No information"),
        ("status", .str "No information"),
        ("name_servers", .str "ns1.example.com"),
        ("expiration_date", .null),
        ("result", .str "success"),
        ("lookup_type", .str "local"),
        ("remaining_api_calls", .null)]

theorem exhausted_retries_fallback_witness :
    (whois_lookup "fb.example" 7 [] netFail (.ok c6Wd)).localCalls = 1 ∧
    (whois_lookup "fb.example" 7 [] netFail (.ok c6Wd)).remoteCalls = 3 ∧
    (whois_lookup "fb.example" 7 [] netFail (.ok c6Wd)).result = .ok c6Record ∧
    cacheFind (whois_lookup "fb.example" 7 [] netFail (.ok c6Wd)).cache
      (pyLower (pyStrip "fb.example")) = some (c6Record, 7 + CACHE_TTL) :=
  let h := exhausted_retries_fallback "fb.example" 7 [] netFail (.ok c6Wd) rfl
    (fun j hj => by interval_cases j <;> rfl)
  ⟨h.1, h.2.1, (h.2.2.1 c6Wd c6Record rfl rfl).1, (h.2.2.1 c6Wd c6Record rfl rfl).2.2.2⟩

/-- Claim C7 counterexample: a remote attempt can return a successful
response (HTTP 200, parsed body `{}`) and the local resolver is still
invoked, because line 100's `if not api_result` tests Python truthiness and
an empty dictionary is falsy.  So "some remote attempt returns a successful
response → the local resolver is never called" is false as stated. -/
theorem successful_response_still_falls_back :
    fetch_whois_api ((fun (_ : Nat) => HttpResponse.resp 200 (.obj []) "" []) 0) =
      .ok (.obj [], []) ∧
    (whois_lookup "empty.example" 0 []
        (fun _ => .resp 200 (.obj []) "" []) (.raised "down")).localCalls = 1 :=
  ⟨rfl, rfl⟩

/-- Claim C7 (amended): the local resolver is invoked only when the remote
loop either exhausts its retries or breaks out with a falsy parsed payload;
in particular, whenever some attempt returns a successful response whose
parsed payload is truthy, the local resolver is never called. -/
theorem no_local_call_after_truthy_success (domain0 : String) (now : Nat)
    (cache : Cache) (responses : Nat → HttpResponse) (localR : LocalOutcome)
    (body : Json) (hdrs : List (String × String)) (n : Nat)
    (hloop : remoteLoop responses 0 3 = .got body hdrs n)
    (ht : body.truthy = true) :
    (whois_lookup domain0 now cache responses localR).localCalls = 0 := by
  have huncached : ∀ c : Cache,
      (lookupUncached (pyLower (pyStrip domain0)) now c responses localR).localCalls = 0 := by
    intro c
    unfold lookupUncached
    rw [hloop]
    simp only [ht, if_pos]
    cases parseApiResult (pyLower (pyStrip domain0)) body hdrs <;> rfl
  unfold whois_lookup
  cases hf : cacheFind cache (pyLower (pyStrip domain0)) with
  | none =>
    simp only [hf]
    exact huncached cache
  | some p =>
    obtain ⟨r, e⟩ := p
    simp only [hf]
    by_cases hlt : now < e
    · rw [if_pos hlt]
      cases mutateCached r <;> rfl
    · rw [if_neg hlt]
      exact huncached (cacheErase cache (pyLower (pyStrip domain0)))

theorem no_local_call_after_truthy_success_witness :
    (whois_lookup "w.example" 0 []
        (fun _ => .resp 200 (.obj [("result", .obj [])]) "" []) (.raised "x")).localCalls
      = 0 :=
  no_local_call_after_truthy_success "w.example" 0 []
    (fun _ => .resp 200 (.obj [("result", .obj [])]) "" []) (.raised "x")
    (.obj [("result", .obj [])]) [] 1 rfl rfl

/-- Claim C8 counterexample: a truthy `status` value of unrecognized type is
passed through unchanged rather than replaced by the sentinel: with
`status = 7` the returned record's `status` field is the integer `7`, not
`"No information"`. -/
theorem unrecognized_status_passes_through :
    (whois_lookup "flatten.example" 0 []
        (fun _ => .resp 200 (.obj [("result", .obj [("status", .int 7)])]) "" [])
        (.raised "x")).result =
      .ok (.obj [("domain", .str "flatten.example"),
                 ("creation_date", .str "No information"),
                 ("registrar", .str "No information"),
                 ("status", .int 7),
                 ("name_servers", .str "No information"),
                 ("expiration_date", .null),
                 ("result", .str "success"),
                 ("lookup_type", .str "whois_api"),
                 ("remaining_api_calls", .null)]) ∧
    Json.int 7 ≠ .str "No information" :=
  ⟨rfl, by decide⟩

/-- Claim C8 (amended): for both sources' normalization, a list-valued
status is joined with `", "` (so `["a","b"]` yields `"a, b"`), a non-empty
scalar string passes through unchanged, an absent/null/falsy non-list value
becomes the sentinel `"No information"`, a *truthy* value of unrecognized
type passes through unchanged (this is where the original claim fails), and
name-server lists are lower-cased entry by entry and joined with a newline. -/
theorem flattening_amended :
    (∀ xs : List String,
        flattenStatus (.arr (xs.map .str)) = .ok (.str (String.intercalate ", " xs))) ∧
    (∀ s : String, s ≠ "" → flattenStatus (.str s) = .ok (.str s)) ∧
    (∀ j : Json, (∀ xs, j ≠ .arr xs) → j.truthy = false →
        flattenStatus j = .ok (.str "No information")) ∧
    (∀ j : Json, (∀ xs, j ≠ .arr xs) → j.truthy = true → flattenStatus j = .ok j) ∧
    (∀ xs : List String,
        flattenNameServers (.arr (xs.map .str)) =
          .ok (.str (String.intercalate "\n" (xs.map pyLower)))) := by
  refine ⟨?_, ?_, ?_, ?_, ?_⟩
  · intro xs
    have h1 : flattenStatus (.arr (xs.map Json.str)) =
        (pyJoin ", " (xs.map Json.str)).bind
          (fun s => (.ok (.str s) : Except PyExn Json)) := rfl
    rw [h1, pyJoin_strings]
    rfl
  · intro s hs
    simp [flattenStatus, pyOr, Json.truthy, hs]
  · intro j hna ht
    cases j <;>
      first
        | exact absurd rfl (hna _)
        | simp [flattenStatus, pyOr, ht]
  · intro j hna ht
    cases j <;>
      first
        | exact absurd rfl (hna _)
        | simp [flattenStatus, pyOr, ht]
  · intro xs
    have h1 : flattenNameServers (.arr (xs.map Json.str)) =
        (pyLowerAll (xs.map Json.str)).bind
          (fun ls => (pyJoin "\n" ls).bind
            (fun s => (.ok (.str s) : Except PyExn Json))) := rfl
    rw [h1, pyLowerAll_strings]
    have h2 : (Except.ok (((xs.map pyLower).map Json.str)) : Except PyExn (List Json)).bind
        (fun ls => (pyJoin "\n" ls).bind
          (fun s => (.ok (.str s) : Except PyExn Json))) =
        (pyJoin "\n" ((xs.map pyLower).map Json.str)).bind
          (fun s => (.ok (.str s) : Except PyExn Json)) := rfl
    rw [h2, pyJoin_strings]
    rfl

theorem flattening_amended_witness :
    flattenStatus (.arr [Json.str "a", .str "b"]) = .ok (.str "a, b") ∧
    flattenStatus (.str "a") = .ok (.str "a") ∧
    flattenStatus .null = .ok (.str "No information") ∧
    flattenStatus (.int 7) = .ok (.int 7) ∧
    flattenNameServers (.arr [Json.str "NS1.EXAMPLE.COM"]) =
      .ok (.str "ns1.example.com") :=
  ⟨flattening_amended.1 ["a", "b"],
   flattening_amended.2.1 "a" (by decide),
   flattening_amended.2.2.1 .null (fun _ h => Json.noConfusion h) rfl,
   flattening_amended.2.2.2.1 (.int 7) (fun _ h => Json.noConfusion h) rfl,
   flattening_amended.2.2.2.2 ["NS1.EXAMPLE.COM"]⟩

/-- Claim C9 (confirmed): for an entry `(r, e)` stored under the normalized
domain (with `e = t0 + d`), a lookup at `now` is a hit exactly when
`now < e` (line 64's `expiry > now`): while live, the stored record is
returned (as mutated by the hit marker, see C1) with zero remote and zero
local calls and the same expiry; once `e ≤ now`, the call behaves exactly as
if the entry were absent — the entry is popped at that access and at least
one remote call is made.  `hmut` says the stored record survives the
hit-marker read (true of every record this program stores); `huniq` says the
cache holds no shadowed duplicate of the key, as for a Python dict. -/
theorem cache_liveness_boundary (domain0 : String) (now e : Nat) (cache : Cache)
    (responses : Nat → HttpResponse) (localR : LocalOutcome) (r r' : Json)
    (hfind : cacheFind cache (pyLower (pyStrip domain0)) = some (r, e))
    (hmut : mutateCached r = .ok r')
    (huniq : cacheFind (cacheErase cache (pyLower (pyStrip domain0)))
        (pyLower (pyStrip domain0)) = none) :
    (now < e →
      whois_lookup domain0 now cache responses localR =
        ⟨.ok r', cacheSet cache (pyLower (pyStrip domain0)) r' e, 0, 0⟩ ∧
      cacheFind (cacheSet cache (pyLower (pyStrip domain0)) r' e)
        (pyLower (pyStrip domain0)) = some (r', e)) ∧
    (e ≤ now →
      whois_lookup domain0 now cache responses localR =
        whois_lookup domain0 now (cacheErase cache (pyLower (pyStrip domain0)))
          responses localR ∧
      1 ≤ (whois_lookup domain0 now cache responses localR).remoteCalls) := by
  constructor
  · intro hlt
    constructor
    · unfold whois_lookup
      simp only [hfind]
      rw [if_pos hlt, hmut]
    · exact cacheFind_cacheSet cache _ r' e
  · intro hge
    have h1 : whois_lookup domain0 now cache responses localR =
        lookupUncached (pyLower (pyStrip domain0)) now
          (cacheErase cache (pyLower (pyStrip domain0))) responses localR := by
      unfold whois_lookup
      simp only [hfind]
      rw [if_neg (by omega)]
    have h2 : whois_lookup domain0 now
          (cacheErase cache (pyLower (pyStrip domain0))) responses localR =
        lookupUncached (pyLower (pyStrip domain0)) now
          (cacheErase cache (pyLower (pyStrip domain0))) responses localR := by
      rw [whois_lookup_notLive _ _ _ _ _ (by unfold notLive; rw [huniq]),
          cacheErase_not_mem _ _ huniq]
    refine ⟨by rw [h1, h2], ?_⟩
    rw [h1]
    exact (lookupUncached_remoteCalls _ _ _ _ _).1

/-- Cache entry for the C9 witness. -/
def c9Rec : Json := .obj [("lookup_type", .str "whois_api")]

/-- The record after the hit marker is appended (C9/C1 witnesses). -/
def c9Mut : Json := .obj [("lookup_type", .str "whois_api, cached")]

theorem cache_liveness_boundary_witness :
    (whois_lookup "cachetest.example" 5 [("cachetest.example", c9Rec, 3600)]
        netFail (.raised "x") =
      ⟨.ok c9Mut,
       cacheSet [("cachetest.example", c9Rec, 3600)]
         (pyLower (pyStrip "cachetest.example")) c9Mut 3600, 0, 0⟩ ∧
     cacheFind (cacheSet [("cachetest.example", c9Rec, 3600)]
         (pyLower (pyStrip "cachetest.example")) c9Mut 3600)
       (pyLower (pyStrip "cachetest.example")) = some (c9Mut, 3600)) ∧
    (whois_lookup "cachetest.example" 3600 [("cachetest.example", c9Rec, 3600)]
        netFail (.raised "x") =
      whois_lookup "cachetest.example" 3600
        (cacheErase [("cachetest.example", c9Rec, 3600)]
          (pyLower (pyStrip "cachetest.example")))
        netFail (.raised "x") ∧
     1 ≤ (whois_lookup "cachetest.example" 3600
        [("cachetest.example", c9Rec, 3600)] netFail (.raised "x")).remoteCalls) :=
  ⟨(cache_liveness_boundary "cachetest.example" 5 3600
      [("cachetest.example", c9Rec, 3600)] netFail (.raised "x") c9Rec c9Mut
      rfl rfl rfl).1 (by omega),
   (cache_liveness_boundary "cachetest.example" 3600 3600
      [("cachetest.example", c9Rec, 3600)] netFail (.raised "x") c9Rec c9Mut
      rfl rfl rfl).2 (by omega)⟩

/-- Claim C10 (confirmed): the `remaining_api_calls` field.  On a 429 the
returned record is `rateLimitRecord`, whose `remaining_api_calls` is the
constant `0` — the record is built without consulting the response headers
at all (lines 87-93).  On a successful parse the field equals
`extract_remaining` of the response headers (lines 162-166), which is the
parsed integer when the `X-RateLimit-Remaining` header holds one, and `None`
— never an exception — when the header is missing or not an integer. -/
theorem remaining_quota_field :
    (∀ (domain0 : String) (now : Nat) (cache : Cache)
        (responses : Nat → HttpResponse) (localR : LocalOutcome) (i : Nat),
        cacheFind cache (pyLower (pyStrip domain0)) = none → i < 3 →
        (∀ j, j < i → isRetryableError (responses j) = true) →
        fetch_whois_api (responses i) = .error (.statusError 429) →
        (whois_lookup domain0 now cache responses localR).result =
          .ok (rateLimitRecord (pyLower (pyStrip domain0))) ∧
        getField (rateLimitRecord (pyLower (pyStrip domain0)))
          "remaining_api_calls" = some (.int 0)) ∧
    (∀ (d : String) (body : Json) (hdrs : List (String × String)) (r : Json),
        parseApiResult d body hdrs = .ok r →
        getField r "remaining_api_calls" = some (extract_remaining hdrs)) ∧
    (∀ hdrs : List (String × String),
        headerGet hdrs "X-RateLimit-Remaining" = none →
        extract_remaining hdrs = .null) ∧
    (∀ (hdrs : List (String × String)) (s : String) (n : Int),
        headerGet hdrs "X-RateLimit-Remaining" = some s →
        pyIntOfString s = some n → extract_remaining hdrs = .int n) ∧
    (∀ (hdrs : List (String × String)) (s : String),
        headerGet hdrs "X-RateLimit-Remaining" = some s →
        pyIntOfString s = none → extract_remaining hdrs = .null) := by
  refine ⟨?_, ?_, ?_, ?_, ?_⟩
  · intro domain0 now cache responses localR i hmiss hi hpre h429
    have hmain := whois_lookup_rate_limited domain0 now cache responses localR i
      hmiss hi hpre h429
    rw [hmain]
    exact ⟨rfl, rfl⟩
  · intro d body hdrs r hp
    exact (parseApiResult_ok_shape d body hdrs r hp).2.2.1
  · intro hdrs hg
    unfold extract_remaining
    rw [hg]
  · intro hdrs s n hg hp
    unfold extract_remaining
    simp [hg, hp]
  · intro hdrs s hg hp
    unfold extract_remaining
    simp [hg, hp]

theorem remaining_quota_field_witness :
    ((whois_lookup "rate.example" 5 [] rlResponses (.raised "x")).result =
        .ok (rateLimitRecord (pyLower (pyStrip "rate.example"))) ∧
      getField (rateLimitRecord (pyLower (pyStrip "rate.example")))
        "remaining_api_calls" = some (.int 0)) ∧
    getField c5Record "remaining_api_calls" =
      some (extract_remaining [("X-RateLimit-Remaining", "9")]) ∧
    extract_remaining [("Content-Type", "application/json")] = .null ∧
    extract_remaining [("X-RateLimit-Remaining", "42")] = .int 42 ∧
    extract_remaining [("X-RateLimit-Remaining", "soon")] = .null :=
  ⟨remaining_quota_field.1 "rate.example" 5 [] rlResponses (.raised "x") 1
     rfl (by omega) (fun j hj => by interval_cases j; rfl) rfl,
   remaining_quota_field.2.1 (pyLower (pyStrip "retry.example"))
     (.obj [("result", .obj [("status", .arr [.str "active"])])])
     [("X-RateLimit-Remaining", "9")] c5Record rfl,
   remaining_quota_field.2.2.1 [("Content-Type", "application/json")] rfl,
   remaining_quota_field.2.2.2.1 [("X-RateLimit-Remaining", "42")] "42" 42 rfl rfl,
   remaining_quota_field.2.2.2.2 [("X-RateLimit-Remaining", "soon")] "soon" rfl rfl⟩

/-- Behavior of the hit-marker read (lines 66-68) on a stored record whose
`lookup_type` is the string `lt`. -/
theorem mutateCached_obj (fs : List (String × Json)) (lt : String)
    (hlt : lookupField fs "lookup_type" = some (.str lt)) :
    mutateCached (.obj fs) =
      (if strContains lt "cached" then .ok (.obj fs)
       else .ok (dictSet (.obj fs) "lookup_type"
         (.str (if lt ≠ "" then lt ++ ", cached" else "cached")))) := by
  unfold mutateCached
  have hget : pyDictGet (.obj fs) "lookup_type" (.str "") = .ok (.str lt) := by
    simp [pyDictGet, hlt]
  rw [hget]
  rfl

/-- Concrete remote source for the C1 counterexample run. -/
def c1Responses : Nat → HttpResponse := fun _ =>
  .resp 200 (.obj [("result", .obj [("status", .str "ok")])]) "" []

/-- Claim C1 counterexample: the second lookup within the TTL window makes
zero remote and zero local calls, but its result is NOT bit-identical to the
first call's result, and the cache read has a side effect: after the hit the
stored entry differs from what the first call stored (lines 66-68 append
", cached" to the record's `lookup_type`, mutating the cached record). -/
theorem second_lookup_not_bit_identical :
    (whois_lookup "idem.example" 10
        (whois_lookup "idem.example" 0 [] c1Responses (.raised "x")).cache
        c1Responses (.raised "x")).remoteCalls = 0 ∧
    (whois_lookup "idem.example" 10
        (whois_lookup "idem.example" 0 [] c1Responses (.raised "x")).cache
        c1Responses (.raised "x")).localCalls = 0 ∧
    (whois_lookup "idem.example" 10
        (whois_lookup "idem.example" 0 [] c1Responses (.raised "x")).cache
        c1Responses (.raised "x")).result ≠
      (whois_lookup "idem.example" 0 [] c1Responses (.raised "x")).result ∧
    (whois_lookup "idem.example" 10
        (whois_lookup "idem.example" 0 [] c1Responses (.raised "x")).cache
        c1Responses (.raised "x")).cache ≠
      (whois_lookup "idem.example" 0 [] c1Responses (.raised "x")).cache :=
  ⟨rfl, rfl, by decide, by decide⟩

/-- Claim C1 (amended): a lookup that hits a live cache entry performs zero
remote and zero local calls, but the read is not side-effect free: on the
first hit the stored record's `lookup_type` gains the suffix ", cached",
both in the returned record and in the stored entry (they are the same
mutated object); a hit on a record already marked "cached" returns the
stored record bit-identically and leaves the cache unchanged. -/
theorem cache_hit_appends_cached_marker (domain0 : String) (now : Nat)
    (cache : Cache) (responses : Nat → HttpResponse) (localR : LocalOutcome)
    (fs : List (String × Json)) (e : Nat) (lt : String)
    (hfind : cacheFind cache (pyLower (pyStrip domain0)) = some (.obj fs, e))
    (hlive : now < e)
    (hlt : lookupField fs "lookup_type" = some (.str lt)) :
    (strContains lt "cached" = false →
      whois_lookup domain0 now cache responses localR =
        ⟨.ok (.obj (dictSetFields fs "lookup_type"
            (.str (if lt ≠ "" then lt ++ ", cached" else "cached")))),
         cacheSet cache (pyLower (pyStrip domain0))
           (.obj (dictSetFields fs "lookup_type"
             (.str (if lt ≠ "" then lt ++ ", cached" else "cached")))) e,
         0, 0⟩) ∧
    (strContains lt "cached" = true →
      whois_lookup domain0 now cache responses localR =
        ⟨.ok (.obj fs), cache, 0, 0⟩) := by
  constructor
  · intro hc
    have hm : mutateCached (.obj fs) =
        .ok (.obj (dictSetFields fs "lookup_type"
          (.str (if lt ≠ "" then lt ++ ", cached" else "cached")))) := by
      rw [mutateCached_obj fs lt hlt]
      simp [hc, dictSet]
    unfold whois_lookup
    simp only [hfind]
    rw [if_pos hlive, hm]
  · intro hc
    have hm : mutateCached (.obj fs) = .ok (.obj fs) := by
      rw [mutateCached_obj fs lt hlt]
      simp [hc]
    unfold whois_lookup
    simp only [hfind]
    rw [if_pos hlive, hm]
    simp only [cacheSet_self cache _ _ _ hfind]

theorem cache_hit_appends_cached_marker_witness :
    whois_lookup "idem2.example" 5
        [("idem2.example", .obj [("lookup_type", .str "whois_api")], 3600)]
        netFail (.raised "x") =
      ⟨.ok (.obj (dictSetFields [("lookup_type", .str "whois_api")] "lookup_type"
          (.str (if ("whois_api" : String) ≠ "" then "whois_api" ++ ", cached"
                 else "cached")))),
       cacheSet [("idem2.example", .obj [("lookup_type", .str "whois_api")], 3600)]
         (pyLower (pyStrip "idem2.example"))
         (.obj (dictSetFields [("lookup_type", .str "whois_api")] "lookup_type"
           (.str (if ("whois_api" : String) ≠ "" then "whois_api" ++ ", cached"
                  else "cached")))) 3600,
       0, 0⟩ :=
  (cache_hit_appends_cached_marker "idem2.example" 5
    [("idem2.example", .obj [("lookup_type", .str "whois_api")], 3600)]
    netFail (.raised "x") [("lookup_type", .str "whois_api")] 3600 "whois_api"
    rfl (by omega) rfl).1 rfl

end Claims

end Whois
